import Mathlib

/-!
Verification development for the gliff-py client SDK (src/gliff.py).

The embedding below translates the gallery-tile consistency core of
src/gliff.py into Lean: Python dicts become association lists with
Python dict semantics (first-key lookup, in-place overwrite on set,
append on fresh key), JSON-serialised item/project content becomes a
`Content` value which is either well-formed JSON of the expected shape
or an unparseable raw string, and Python exceptions become an explicit
`PyErr` value threaded through `Except`.  Each function keeps the name
it has in src/gliff.py where Lean's lexical rules allow it; the few
renamings (for example the annotation record type) are noted in
comments next to the definition.
-/

/-- Python exceptions that the modelled code paths can raise.
`typeError` models `TypeError` (e.g. iterating or indexing with `None`),
`attributeError` models `AttributeError` (attribute access on `None`),
`indexError` models `IndexError` (`lst[-1]` on an empty list), and
`decodeError` models the decode exceptions raised by `base64.b64decode`
or `PIL.Image.open` on an unparseable encoded string. -/
inductive PyErr
  | typeError
  | attributeError
  | indexError
  | decodeError
deriving DecidableEq, Repr

/-- A JSON scalar value, used for the `metadata` mappings whose values the
code never inspects (it only copies them around during merges). -/
inductive JVal
  | str (s : String)
  | num (n : Int)
  | bool (b : Bool)
  | null
deriving DecidableEq, Repr

/-- A Python `dict` modelled as an association list in insertion order.
The modelled operations keep keys unique, exactly as Python does. -/
abbrev Dict (K V : Type) : Type := List (K × V)

/-- Python `d[k]` / `d.get(k)`: value at the first entry with key `k`. -/
def dictLookup {K V : Type} [DecidableEq K] (d : Dict K V) (k : K) : Option V :=
  match d with
  | [] => none
  | (k', v) :: rest => if k' = k then some v else dictLookup rest k

/-- Python `d[k] = v`: overwrite the entry in place if the key is present,
append a new entry otherwise. -/
def dictSet {K V : Type} [DecidableEq K] (d : Dict K V) (k : K) (v : V) : Dict K V :=
  match d with
  | [] => [(k, v)]
  | (k', v') :: rest => if k' = k then (k, v) :: rest else (k', v') :: dictSet rest k v

/-- Python `d.update(patch)`: set every key of the patch, in order. -/
def dictUpdate {K V : Type} [DecidableEq K] (d patch : Dict K V) : Dict K V :=
  patch.foldl (fun acc kv => dictSet acc kv.1 kv.2) d

/-- Keys of a dict, in insertion order. -/
def dictKeys {K V : Type} (d : Dict K V) : List K := d.map Prod.fst

/-- JSON-serialised content (a project's content blob or an item's
content blob), as stored in the encrypted store.  `json v` is the
compact JSON serialisation of the well-formed document `v`; `invalid raw`
is a stored blob that `json.loads` fails to parse. -/
inductive Content (α : Type)
  | json (v : α)
  | invalid (raw : String)
deriving DecidableEq, Repr

/-- `Gliff.decode_content` (src/gliff.py:148-153): `json.loads` the blob;
on `json.JSONDecodeError` the exception is caught, a warning is logged,
and the function falls off the end, returning `None`. -/
def decode_content {α : Type} (content : Content α) : Option α :=
  match content with
  | .json v => some v
  | .invalid _ => none

/-- `Gliff.encode_content` (src/gliff.py:155-157): `json.dumps` with
compact separators. -/
def encode_content {α : Type} (decoded : α) : Content α := .json decoded

/-- A gallery tile, as built by `Gliff._create_new_tile`
(src/gliff.py:434-478).  Every tile this code creates carries all eight
fields; `update_tile`'s defensive `"annotationComplete" not in tile`
branch (src/gliff.py:540-541) only fires for legacy tiles missing that
key, which the data model of the spec (§3) excludes, so the embedding
makes the field mandatory and that branch a no-op. -/
structure Tile where
  id : String
  thumbnail : String
  imageLabels : List String
  metadata : Dict String JVal
  imageUID : String
  annotationUID : Dict String String
  auditUID : Dict String String
  annotationComplete : Dict String Bool
deriving DecidableEq, Repr

/-- A tile patch, as accepted by the keyword arguments of the nested
`update_tile` function (src/gliff.py:524-532).  `none` models an absent
keyword (Python default `None`); `some []` models a present but empty
mapping. -/
structure TileUpdate where
  metadata : Option (Dict String JVal)
  annotationUID : Option (Dict String String)
  auditUID : Option (Dict String String)
  annotationComplete : Option (Dict String Bool)
  imageLabels : Option (List String)
deriving DecidableEq, Repr

/-- `Gliff._create_tile_update` (src/gliff.py:393-432).  The Python
function always emits the four mapping keys (defaulting to `{}`), and
emits `imageLabels` only when the argument is not `None`.  The source's
default arguments (`image_labels=None`, the rest `{}`) are passed
explicitly by the callers modelled below. -/
def _create_tile_update (image_labels : Option (List String))
    (metadata : Dict String JVal) (annotation_uid : Dict String String)
    (audit_uid : Dict String String) (annotation_complete : Dict String Bool) :
    TileUpdate :=
  { metadata := some metadata
    annotationUID := some annotation_uid
    auditUID := some audit_uid
    annotationComplete := some annotation_complete
    imageLabels := image_labels }

/-- `Gliff._create_new_tile` (src/gliff.py:434-478). -/
def _create_new_tile (image_item_uid thumbnail : String)
    (image_labels : List String) (metadata : Dict String JVal)
    (annotation_uid : Dict String String) (audit_uid : Dict String String)
    (annotation_complete : Dict String Bool) : Tile :=
  { id := image_item_uid
    thumbnail := thumbnail
    imageLabels := image_labels
    metadata := metadata
    imageUID := image_item_uid
    annotationUID := annotation_uid
    auditUID := audit_uid
    annotationComplete := annotation_complete }

/-- The nested `update_tile` function of `Gliff._update_gallery_tile`
(src/gliff.py:524-545): each mapping field present in the patch is
`dict.update`d into the tile's copy of that mapping; `imageLabels`, when
present, replaces the whole list; absent (`None`) fields change nothing;
extra `**kwargs` are ignored. -/
def update_tile (tile : Tile) (u : TileUpdate) : Tile :=
  let t1 := match u.metadata with
    | some p => { tile with metadata := dictUpdate tile.metadata p }
    | none => tile
  let t2 := match u.annotationUID with
    | some p => { t1 with annotationUID := dictUpdate t1.annotationUID p }
    | none => t1
  let t3 := match u.auditUID with
    | some p => { t2 with auditUID := dictUpdate t2.auditUID p }
    | none => t2
  let t4 := match u.annotationComplete with
    | some p => { t3 with annotationComplete := dictUpdate t3.annotationComplete p }
    | none => t3
  match u.imageLabels with
  | some l => { t4 with imageLabels := l }
  | none => t4

/-- The loop of `Gliff._find_gallery_tile` (src/gliff.py:503-509),
with the running `enumerate` index made explicit. -/
def findTileAux (id : String) : List Tile → Nat → Option Nat
  | [], _ => none
  | t :: ts, i => if t.id = id then some i else findTileAux id ts (i + 1)

/-- `Gliff._find_gallery_tile` (src/gliff.py:503-509): index of the first
tile whose `id` equals the searched uid, or `None`. -/
def _find_gallery_tile (gallery : List Tile) (id : String) : Option Nat :=
  findTileAux id gallery 0

/-- `Gliff._get_gallery` (src/gliff.py:500-501): decode the project's
content blob; `None` when the blob is not valid JSON. -/
def _get_gallery (content : Content (List Tile)) : Option (List Tile) :=
  decode_content content

/-- The body of the `try` block of `Gliff._update_gallery_tile`
(src/gliff.py:549-556), with each step's possible exception explicit:
a `None` gallery makes `enumerate(None)` raise `TypeError`; a failed
lookup makes `gallery[None]` raise `TypeError`; an out-of-range index
would raise `IndexError` (unreachable, since `_find_gallery_tile` only
returns in-range indices). -/
def _update_gallery_tile_exc (content : Content (List Tile)) (item_uid : String)
    (tile_data : TileUpdate) : Except PyErr (Content (List Tile)) :=
  match decode_content content with
  | none => .error .typeError
  | some gallery =>
    match _find_gallery_tile gallery item_uid with
    | none => .error .typeError
    | some i =>
      match gallery.get? i with
      | none => .error .indexError
      | some t => .ok (encode_content (gallery.set i (update_tile t tile_data)))

/-- `Gliff._update_gallery_tile` (src/gliff.py:514-560): the whole
read-find-merge-write cycle runs inside `try ... except Exception`, which
logs the error and returns normally, leaving the stored content as it
was. -/
def _update_gallery_tile (content : Content (List Tile)) (item_uid : String)
    (tile_data : TileUpdate) : Content (List Tile) :=
  match _update_gallery_tile_exc content item_uid tile_data with
  | .ok c => c
  | .error _ => content

/-- `Gliff._create_gallery_tile` (src/gliff.py:480-498): decode the
gallery, append the new tile, re-encode.  The body runs inside
`try ... except Exception`; when the stored content is not valid JSON the
decoded gallery is `None` and `None.append` raises `AttributeError`,
which is caught and logged, leaving the content unchanged. -/
def _create_gallery_tile (content : Content (List Tile)) (tile : Tile) :
    Content (List Tile) :=
  match _get_gallery content with
  | some gallery => encode_content (gallery ++ [tile])
  | none => content

/-- The annotation toolbox type, `ToolboxType` in src/gliff.py:12. -/
inductive Toolbox
  | paintbrush
  | spline
  | boundingBox
deriving DecidableEq, Repr

/-- A `{z, t}` space-time index, as in the defaults of `create_annotation`
and `create_brush_stroke` (src/gliff.py:174-208). -/
structure SpaceTimeInfo where
  z : Int
  t : Int
deriving DecidableEq, Repr

/-- A `{x, y}` corner point of a bounding box; both coordinates may be
`null` (src/gliff.py:202-208). -/
structure BoxPoint where
  x : Option Int
  y : Option Int
deriving DecidableEq, Repr

/-- The `coordinates` object of a bounding box (src/gliff.py:202-208). -/
structure BBoxCoordinates where
  topLeft : BoxPoint
  bottomRight : BoxPoint
deriving DecidableEq, Repr

/-- A bounding-box record (src/gliff.py:202-208). -/
structure BBox where
  coordinates : BBoxCoordinates
  spaceTimeInfo : SpaceTimeInfo
deriving DecidableEq, Repr

/-- A brush descriptor (src/gliff.py:178-183).  The numeric radius is a
`JVal` so that the default `0.5` keeps a faithful representative; no
modelled code path inspects it. -/
structure Brush where
  radius : JVal
  type : String
  color : String
  is3D : Bool
deriving DecidableEq, Repr

/-- A brush-stroke record, as built by `create_brush_stroke`
(src/gliff.py:171-191). -/
structure BrushStroke where
  coordinates : List Int
  spaceTimeInfo : SpaceTimeInfo
  brush : Brush
deriving DecidableEq, Repr

/-- A spline record (src/gliff.py:197-201). -/
structure Spline where
  coordinates : List Int
  spaceTimeInfo : SpaceTimeInfo
  isClosed : Bool
deriving DecidableEq, Repr

/-- One annotation record, as built by `create_annotation`
(src/gliff.py:193-242); named `Annot` here. -/
structure Annot where
  toolbox : Toolbox
  labels : List String
  spline : Spline
  boundingBox : BBox
  brushStrokes : List BrushStroke
  parameters : Dict String JVal
deriving DecidableEq, Repr

/-- The default `spline` argument of `create_annotation`. -/
def defaultSpline : Spline :=
  { coordinates := [], spaceTimeInfo := { z := 0, t := 0 }, isClosed := false }

/-- The default `bounding_box` argument of `create_annotation`. -/
def defaultBBox : BBox :=
  { coordinates :=
      { topLeft := { x := none, y := none }, bottomRight := { x := none, y := none } }
    spaceTimeInfo := { z := 0, t := 0 } }

/-- The default `brush` argument of `create_brush_stroke`. -/
def defaultBrush : Brush :=
  { radius := .str "0.5", type := "paint", color := "rgba(170, 0, 0, 0.5)", is3D := false }

/-- `Gliff.create_brush_stroke` (src/gliff.py:171-191); the source's
default arguments are passed explicitly here. -/
def create_brush_stroke (coordinates : List Int) (spaceTimeInfo : SpaceTimeInfo)
    (brush : Brush) : BrushStroke :=
  { coordinates := coordinates, spaceTimeInfo := spaceTimeInfo, brush := brush }

/-- `Gliff.create_annotation` (src/gliff.py:193-242); named `create_annot`
here, with the source's default arguments passed explicitly. -/
def create_annot (toolbox : Toolbox) (labels : List String) (spline : Spline)
    (bounding_box : BBox) (brush_strokes : List BrushStroke)
    (parameters : Dict String JVal) : Annot :=
  { toolbox := toolbox
    labels := labels
    spline := spline
    boundingBox := bounding_box
    brushStrokes := brush_strokes
    parameters := parameters }

/-- `Gliff.is_empty_annotation` (src/gliff.py:163-169); named
`is_empty_annot` here.  The Python `&` on the three comparison results is
bitwise-and on `bool`s, i.e. logical conjunction. -/
def is_empty_annot (a : Annot) : Bool :=
  (a.spline.coordinates.length == 0)
    && (a.brushStrokes.length == 0)
    && (a.boundingBox.coordinates.topLeft.x == none)

/-- The annotation-sequence transformation at the heart of
`Gliff._update_annotation_item` (src/gliff.py:877-884), applied to the
fetched item's stored content and the new annotations.

The guard in the source reads

  `if len(prev_annotations) > 0 & self.is_empty_annotation(prev_annotations[-1]):`

and Python's `&` binds tighter than `>`, so it parses as
`len(prev_annotations) > (0 & is_empty_annotation(prev_annotations[-1]))`.
Because `0 & b` is `0` for either boolean, the guard is equivalent to
`len(prev_annotations) > 0` — but the right operand is still evaluated,
so `prev_annotations[-1]` raises `IndexError` when the stored list is
empty.  A `None` decode result makes `len(None)` raise `TypeError`.
Both exceptions are uncaught in `_update_annotation_item`. -/
def _update_annotation_item_content (prevContent : Content (List Annot))
    (anns : List Annot) : Except PyErr (Content (List Annot)) :=
  match decode_content prevContent with
  | none => .error .typeError
  | some prev =>
    match prev.getLast? with
    | none => .error .indexError
    | some last =>
      let threshold : Nat := 0 &&& (is_empty_annot last).toNat
      let trimmed := if prev.length > threshold then prev.dropLast else prev
      .ok (encode_content (trimmed ++ anns))

/-- The item metadata written for annotation items
(src/gliff.py:816-821). -/
structure AnnItemMeta where
  type : String
  createdTime : Int
  modifiedTime : Int
  isComplete : Bool
deriving DecidableEq, Repr

/-- An annotation item in the store: metadata plus JSON content holding
the annotation sequence. -/
structure AnnItem where
  meta : AnnItemMeta
  content : Content (List Annot)
deriving DecidableEq, Repr

/-- The store state seen by the annotation operations: the project's
gallery content plus the annotation items, keyed by item uid.  (Image
items live in their own table, `UploadState` below; item uids are unique
across the store, and no modelled operation confuses the two kinds.) -/
structure AnnState where
  gallery : Content (List Tile)
  annItems : Dict String AnnItem
deriving DecidableEq, Repr

/-- The loop of `Gliff._get_annotation_uid` (src/gliff.py:771-777):
scan the gallery; at a tile whose `id` matches, return that tile's
`annotationUID[username]` and break if the username is present, else
keep scanning. -/
def _get_annotation_uid_list (gallery : List Tile)
    (image_item_uid username : String) : Option String :=
  match gallery with
  | [] => none
  | t :: ts =>
    if t.id = image_item_uid then
      match dictLookup t.annotationUID username with
      | some auid => some auid
      | none => _get_annotation_uid_list ts image_item_uid username
    else _get_annotation_uid_list ts image_item_uid username

/-- `Gliff._get_annotation_uid` (src/gliff.py:746-777): decode the
gallery and scan it.  A `None` gallery makes the `for` loop raise
`TypeError`, uncaught in this helper. -/
def _get_annotation_uid (gallery : Content (List Tile))
    (image_item_uid username : String) : Except PyErr (Option String) :=
  match decode_content gallery with
  | none => .error .typeError
  | some g => .ok (_get_annotation_uid_list g image_item_uid username)

/-- `Gliff.get_annotations` (src/gliff.py:942-971): resolve the
annotation-item uid; when none is recorded, fall through and return
`None`; otherwise fetch the item (`get_project_item` returns `None` on a
fetch error, and `None.content` then raises `AttributeError`) and decode
its content.  The whole body runs inside `try ... except Exception`,
which logs and returns `None`. -/
def get_annotations (st : AnnState) (image_item_uid username : String) :
    Option (List Annot) :=
  match
    (match _get_annotation_uid st.gallery image_item_uid username with
     | .error e => .error e
     | .ok none => .ok none
     | .ok (some auid) =>
       match dictLookup st.annItems auid with
       | none => .error .attributeError
       | some item => .ok (decode_content item.content)
     : Except PyErr (Option (List Annot))) with
  | .ok r => r
  | .error _ => none

/-- A decoded bitmap, standing in for `PIL.Image.Image`: its pixel size
plus an abstract payload identifying the pixel data. -/
structure PILImage where
  width : Nat
  height : Nat
  payload : String
deriving DecidableEq, Repr

/-- The `image` argument of `upload_image` / `_process_image_data`
(src/gliff.py:244-273): a decoded bitmap, an encoded string, or a value
of any other type (which fails the `type`/`isinstance` checks). -/
inductive ImageInput
  | pil (img : PILImage)
  | str (s : String)
  | other
deriving DecidableEq, Repr

/-- The external image codec (base64 / PIL / thumbnailing), out of scope
per spec §1 and modelled at its interface boundary: `b64ToPil` is
`base64_to_pil_image`, returning `none` exactly when the library raises
on an unparseable string; `pilToB64` is `pil_to_base64_image`;
`thumbnailOf` is `_get_thumbnail_from_pil_image`. -/
structure Codec where
  b64ToPil : String → Option PILImage
  pilToB64 : PILImage → String
  thumbnailOf : PILImage → String

/-- The `image_data` dictionary returned by `_process_image_data`
(src/gliff.py:267-273). -/
structure ImageData where
  width : Nat
  height : Nat
  thumbnail : String
  encoded_image : Content (List (List String))
deriving DecidableEq, Repr

/-- `Gliff._process_image_data` (src/gliff.py:244-273): a bitmap is
re-encoded, an encoded string is decoded to measure it (an unparseable
string makes the decoder raise, uncaught), and any other value logs an
error and returns `None`. -/
def _process_image_data (codec : Codec) (image : ImageInput) :
    Except PyErr (Option ImageData) :=
  match image with
  | .pil img =>
    let encoded := codec.pilToB64 img
    .ok (some
      { width := img.width
        height := img.height
        thumbnail := codec.thumbnailOf img
        encoded_image := encode_content [[encoded]] })
  | .str s =>
    match codec.b64ToPil s with
    | some img =>
      .ok (some
        { width := img.width
          height := img.height
          thumbnail := codec.thumbnailOf img
          encoded_image := encode_content [[s]] })
    | none => .error .decodeError
  | .other => .ok none

/-- The item metadata written for image items (src/gliff.py:603-608). -/
structure ImageItemMeta where
  type : String
  imageName : String
  createdTime : Int
  modifiedTime : Int
deriving DecidableEq, Repr

/-- An image item in the store: metadata plus JSON content of shape
`[[encoded_image]]`. -/
structure ImageItem where
  meta : ImageItemMeta
  content : Content (List (List String))
deriving DecidableEq, Repr

/-- The store state seen by the image operations: the image items keyed
by uid, plus the project's gallery content. -/
structure UploadState where
  items : Dict String ImageItem
  gallery : Content (List Tile)
deriving DecidableEq, Repr

/-- `Gliff.upload_image` (src/gliff.py:562-630) with the remote store
made explicit: `now` is `get_current_time()` and `freshUid` is the uid
the store assigns to the created item (`item.uid`).  Session binding
(`update_project_data`, modelled separately below) does not touch this
state.  The result pairs the post-call store state with the call's
outcome — `.ok none` models the early `return None` for an unprocessable
image, `.error e` models an uncaught exception (raised before any state
mutation). -/
def upload_image (codec : Codec) (st : UploadState) (now : Int)
    (freshUid name : String) (image : ImageInput) (image_labels : List String)
    (metadata : Dict String JVal) : UploadState × Except PyErr (Option String) :=
  match _process_image_data codec image with
  | .error e => (st, .error e)
  | .ok none => (st, .ok none)
  | .ok (some d) =>
    let item : ImageItem :=
      { meta :=
          { type := "gliff.image", imageName := name, createdTime := now,
            modifiedTime := now }
        content := d.encoded_image }
    let items := st.items ++ [(freshUid, item)]
    let tileMetadata :=
      dictUpdate
        [("imageName", JVal.str name), ("width", JVal.num d.width),
          ("height", JVal.num d.height)] metadata
    let newTile := _create_new_tile freshUid d.thumbnail image_labels tileMetadata [] [] []
    ({ items := items, gallery := _create_gallery_tile st.gallery newTile },
      .ok (some freshUid))

/-- One `upload_image` call's arguments (minus the shared codec and
clock): the store-assigned fresh uid and the caller-supplied name, image,
labels and metadata. -/
structure UploadArgs where
  freshUid : String
  name : String
  image : ImageInput
  image_labels : List String
  metadata : Dict String JVal
deriving DecidableEq, Repr

/-- A sequence of `upload_image` calls, threading the store state and
collecting the uids of the items actually created.  A call that returns
`None` or raises leaves the state untouched (the exception is raised
before any mutation), and the sequence continues with the next call. -/
def uploadMany (codec : Codec) (now : Int) :
    List UploadArgs → UploadState → UploadState × List String
  | [], st => (st, [])
  | a :: rest, st =>
    match upload_image codec st now a.freshUid a.name a.image a.image_labels a.metadata with
    | (st', .ok (some uid)) =>
      let r := uploadMany codec now rest st'
      (r.1, uid :: r.2)
    | (st', .ok none) => uploadMany codec now rest st'
    | (st', .error _) => uploadMany codec now rest st'

/-- `Gliff.update_metadata_and_labels` (src/gliff.py:632-675): a no-op
when both arguments are falsy; otherwise fetch the item
(`get_project_item` swallows fetch errors and returns `None`, after
which `item.meta` raises `AttributeError`, uncaught here), bump its
`modifiedTime`, write it back, and merge-update the matching tile via
`_update_gallery_tile` (which swallows its own failures).  The result
pairs the post-call state with the outcome; the Python function always
returns `None`, so a normal return is `.ok ()`. -/
def update_metadata_and_labels (st : UploadState) (now : Int) (item_uid : String)
    (image_labels : Option (List String)) (metadata : Dict String JVal) :
    UploadState × Except PyErr Unit :=
  if metadata.isEmpty && (image_labels.getD []).isEmpty then (st, .ok ())
  else
    match dictLookup st.items item_uid with
    | none => (st, .error .attributeError)
    | some item =>
      let item := { item with meta := { item.meta with modifiedTime := now } }
      let st := { st with items := dictSet st.items item_uid item }
      let tile_data := _create_tile_update image_labels metadata [] [] []
      ({ st with gallery := _update_gallery_tile st.gallery item_uid tile_data },
        .ok ())

/-- `Gliff.get_metadata_and_labels` (src/gliff.py:714-744): decode the
gallery, find the tile, return its `metadata` and `imageLabels`.  Every
failure (`TypeError` from iterating or indexing with `None`, out-of-range
`IndexError`) is caught by the surrounding `try ... except Exception`,
logged, and turned into a `None` return — so the function never raises,
hence the always-`.ok` result. -/
def get_metadata_and_labels (content : Content (List Tile)) (item_uid : String) :
    Except PyErr (Option (Dict String JVal × List String)) :=
  match
    (match decode_content content with
     | none => .error .typeError
     | some gallery =>
       match _find_gallery_tile gallery item_uid with
       | none => .error .typeError
       | some i =>
         match gallery.get? i with
         | none => .error .indexError
         | some t => .ok (t.metadata, t.imageLabels)
     : Except PyErr (Dict String JVal × List String)) with
  | .ok r => .ok (some r)
  | .error _ => .ok none

/-- The remote fetch operations used by `Project.reset_values`
(src/gliff.py:19-81), at their interface boundary:
`collectionMng` is `account.get_collection_manager()`, `fetchCollection`
is `project_mng.fetch(project_uid)`, `itemMng` is
`project_mng.get_item_manager(project)`.  Handles are abstract numeric
identities. -/
structure Remote where
  collectionMng : String → Nat
  fetchCollection : Nat → String → Nat
  itemMng : Nat → Nat → Nat

/-- The values cached by a `Project` instance (src/gliff.py:15-25). -/
structure ProjectCache where
  account : String
  project_uid : String
  project_mng : Nat
  project : Nat
  item_mng : Nat
deriving DecidableEq, Repr

/-- `Project.reset_values` (src/gliff.py:19-25): three remote fetches,
whose count is returned alongside the refreshed cache. -/
def reset_values (r : Remote) (account project_uid : String) : ProjectCache × Nat :=
  let pm := r.collectionMng account
  let pr := r.fetchCollection pm project_uid
  let im := r.itemMng pm pr
  ({ account := account, project_uid := project_uid, project_mng := pm,
      project := pr, item_mng := im }, 3)

/-- `Project.update_project_data` (src/gliff.py:83-88): reset all cached
values when the account or the project uid changed, otherwise do
nothing (zero remote fetches). -/
def project_update_project_data (r : Remote) (c : ProjectCache)
    (account project_uid : String) : ProjectCache × Nat :=
  if account ≠ c.account ∨ project_uid ≠ c.project_uid then
    reset_values r account project_uid
  else (c, 0)

/-- `Gliff.update_project_data` (src/gliff.py:350-364): create the
`Project` (fetching everything) when none is bound yet, else delegate to
`Project.update_project_data`. -/
def gliff_update_project_data (r : Remote) (s : Option ProjectCache)
    (account project_uid : String) : Option ProjectCache × Nat :=
  match s with
  | none =>
    let rv := reset_values r account project_uid
    (some rv.1, rv.2)
  | some c =>
    let rv := project_update_project_data r c account project_uid
    (some rv.1, rv.2)

/-- A concrete codec for concrete evaluations: no string is parseable,
encoding returns the payload, thumbnails are a fixed marker. -/
def codec0 : Codec :=
  { b64ToPil := fun _ => none
    pilToB64 := fun img => img.payload
    thumbnailOf := fun _ => "thumb" }

/-- An empty concrete store. -/
def st0 : UploadState := { items := [], gallery := .json [] }

/-- A concrete tile used in concrete evaluations: one annotation entry
for user alice. -/
def exTile : Tile :=
  _create_new_tile "img1" "th1" ["lab"] [("imageName", .str "scan1")]
    [("alice", "A1")] [] [("alice", false)]

/-- A concrete patch adding an annotationUID entry for user bob. -/
def exPatch : TileUpdate :=
  { metadata := none
    annotationUID := some [("bob", "B1")]
    auditUID := none
    annotationComplete := none
    imageLabels := none }

/-- A concrete image item. -/
def exImageItem : ImageItem :=
  { meta := { type := "gliff.image", imageName := "scan1", createdTime := 1, modifiedTime := 1 }
    content := .json [["enc"]] }

/-- A non-empty concrete annotation: its spline has coordinates. -/
def exAnn1 : Annot :=
  create_annot .spline ["a"]
    { coordinates := [1, 2], spaceTimeInfo := { z := 0, t := 0 }, isClosed := true }
    defaultBBox [] []

/-- A non-empty concrete annotation: it has one brush stroke. -/
def exAnn2 : Annot :=
  create_annot .paintbrush [] defaultSpline defaultBBox
    [create_brush_stroke [3, 4] { z := 0, t := 0 } defaultBrush] []

/-- A non-empty concrete annotation: its bounding box has a top-left x. -/
def exAnn3 : Annot :=
  create_annot .boundingBox [] defaultSpline
    { coordinates :=
        { topLeft := { x := some 1, y := some 2 },
          bottomRight := { x := some 3, y := some 4 } }
      spaceTimeInfo := { z := 0, t := 0 } } [] []

/-- A concrete annotation-operations state: one tile for image `img1`
with an annotation item `AN1` recorded for alice, and that item's
content holding one annotation. -/
def exAnnItemMeta : AnnItemMeta :=
  { type := "gliff.annotation", createdTime := 1, modifiedTime := 1, isComplete := false }

def exAnnState : AnnState :=
  { gallery := .json [exTile]
    annItems := [("A1", { meta := exAnnItemMeta, content := .json [exAnn1] })] }

/-- First-wins combination of a patch lookup and an existing lookup:
the value a merged mapping associates to a key. -/
def mergeLookup {V : Type} (patchVal oldVal : Option V) : Option V :=
  match patchVal with
  | some v => some v
  | none => oldVal

/-! ### Dictionary lemmas -/

theorem dictLookup_eq_none_iff {K V : Type} [DecidableEq K] (d : Dict K V) (k : K) :
    dictLookup d k = none ↔ k ∉ dictKeys d := by
  induction d with
  | nil => simp [dictLookup, dictKeys]
  | cons kv rest ih =>
    obtain ⟨k0, v0⟩ := kv
    by_cases h : k0 = k
    · simp [dictLookup, dictKeys, h]
    · simp [dictLookup, dictKeys, h, ih]
      tauto

theorem dictLookup_dictSet {K V : Type} [DecidableEq K] (d : Dict K V) (k k' : K) (v : V) :
    dictLookup (dictSet d k v) k' = if k = k' then some v else dictLookup d k' := by
  induction d with
  | nil => simp [dictSet, dictLookup]
  | cons kv rest ih =>
    obtain ⟨k0, v0⟩ := kv
    by_cases h : k0 = k
    · subst h
      simp only [dictSet, if_pos rfl, dictLookup]
      by_cases h2 : k0 = k' <;> simp [h2]
    · simp only [dictSet, if_neg h, dictLookup]
      by_cases h2 : k0 = k'
      · have hk : ¬k = k' := fun he => h (h2.trans he.symm)
        simp [h2, hk]
      · simp [h2, ih]

theorem dictLookup_dictUpdate_of_none {K V : Type} [DecidableEq K] (d patch : Dict K V)
    (k : K) (h : dictLookup patch k = none) :
    dictLookup (dictUpdate d patch) k = dictLookup d k := by
  induction patch generalizing d with
  | nil => rfl
  | cons kv rest ih =>
    obtain ⟨k0, v0⟩ := kv
    by_cases h0 : k0 = k
    · simp [dictLookup, h0] at h
    · simp only [dictLookup, if_neg h0] at h
      show dictLookup (dictUpdate (dictSet d k0 v0) rest) k = dictLookup d k
      rw [ih (dictSet d k0 v0) h, dictLookup_dictSet]
      simp [h0]

theorem dictLookup_dictUpdate {K V : Type} [DecidableEq K] (d patch : Dict K V) (k : K)
    (hN : (dictKeys patch).Nodup) :
    dictLookup (dictUpdate d patch) k =
      mergeLookup (dictLookup patch k) (dictLookup d k) := by
  induction patch generalizing d with
  | nil => rfl
  | cons kv rest ih =>
    obtain ⟨k0, v0⟩ := kv
    have hN' : k0 ∉ dictKeys rest ∧ (dictKeys rest).Nodup := by
      simpa [dictKeys] using hN
    show dictLookup (dictUpdate (dictSet d k0 v0) rest) k = _
    rw [ih (dictSet d k0 v0) hN'.2]
    by_cases h0 : k0 = k
    · subst h0
      have hnone : dictLookup rest k0 = none := (dictLookup_eq_none_iff rest k0).mpr hN'.1
      simp [hnone, dictLookup_dictSet, dictLookup, mergeLookup]
    · rw [dictLookup_dictSet]
      simp [dictLookup, h0, mergeLookup]

theorem dictUpdate_nil {K V : Type} [DecidableEq K] (d : Dict K V) :
    dictUpdate d [] = d := rfl

/-! ### `update_tile` field lemmas -/

theorem update_tile_id (t : Tile) (u : TileUpdate) : (update_tile t u).id = t.id := by
  rcases u with ⟨m, a, b, c, il⟩
  cases m <;> cases a <;> cases b <;> cases c <;> cases il <;> rfl

theorem update_tile_thumbnail (t : Tile) (u : TileUpdate) :
    (update_tile t u).thumbnail = t.thumbnail := by
  rcases u with ⟨m, a, b, c, il⟩
  cases m <;> cases a <;> cases b <;> cases c <;> cases il <;> rfl

theorem update_tile_imageUID (t : Tile) (u : TileUpdate) :
    (update_tile t u).imageUID = t.imageUID := by
  rcases u with ⟨m, a, b, c, il⟩
  cases m <;> cases a <;> cases b <;> cases c <;> cases il <;> rfl

theorem update_tile_metadata (t : Tile) (u : TileUpdate) :
    (update_tile t u).metadata =
      match u.metadata with
      | some p => dictUpdate t.metadata p
      | none => t.metadata := by
  rcases u with ⟨m, a, b, c, il⟩
  cases m <;> cases a <;> cases b <;> cases c <;> cases il <;> rfl

theorem update_tile_annotationUID (t : Tile) (u : TileUpdate) :
    (update_tile t u).annotationUID =
      match u.annotationUID with
      | some p => dictUpdate t.annotationUID p
      | none => t.annotationUID := by
  rcases u with ⟨m, a, b, c, il⟩
  cases m <;> cases a <;> cases b <;> cases c <;> cases il <;> rfl

theorem update_tile_auditUID (t : Tile) (u : TileUpdate) :
    (update_tile t u).auditUID =
      match u.auditUID with
      | some p => dictUpdate t.auditUID p
      | none => t.auditUID := by
  rcases u with ⟨m, a, b, c, il⟩
  cases m <;> cases a <;> cases b <;> cases c <;> cases il <;> rfl

theorem update_tile_annotationComplete (t : Tile) (u : TileUpdate) :
    (update_tile t u).annotationComplete =
      match u.annotationComplete with
      | some p => dictUpdate t.annotationComplete p
      | none => t.annotationComplete := by
  rcases u with ⟨m, a, b, c, il⟩
  cases m <;> cases a <;> cases b <;> cases c <;> cases il <;> rfl

theorem update_tile_imageLabels (t : Tile) (u : TileUpdate) :
    (update_tile t u).imageLabels =
      match u.imageLabels with
      | some l => l
      | none => t.imageLabels := by
  rcases u with ⟨m, a, b, c, il⟩
  cases m <;> cases a <;> cases b <;> cases c <;> cases il <;> rfl

/-! ### List helper lemmas -/

theorem list_set_getElem_self {α : Type} (l : List α) (i : Nat) (b : α)
    (h : l[i]? = some b) : l.set i b = l := by
  induction l generalizing i with
  | nil => simp at h
  | cons x xs ih =>
    cases i with
    | zero => simp at h; simp [h]
    | succ n => simp at h; simp [ih n h]

/-! ### `_find_gallery_tile` lemmas -/

theorem findTileAux_shift (id : String) (g : List Tile) :
    ∀ i, findTileAux id g i = (findTileAux id g 0).map (fun j => j + i) := by
  induction g with
  | nil => intro i; rfl
  | cons t ts ih =>
    intro i
    by_cases h : t.id = id
    · simp [findTileAux, h]
    · simp only [findTileAux, if_neg h]
      rw [ih (i + 1), ih 1]
      cases hf : findTileAux id ts 0 with
      | none => rfl
      | some j => simp [Option.map]; omega

theorem find_none_iff (g : List Tile) (id : String) :
    _find_gallery_tile g id = none ↔ ∀ t ∈ g, t.id ≠ id := by
  have aux : ∀ (g : List Tile) (i : Nat),
      findTileAux id g i = none ↔ ∀ t ∈ g, t.id ≠ id := by
    intro g
    induction g with
    | nil => intro i; simp [findTileAux]
    | cons t ts ih =>
      intro i
      by_cases h : t.id = id
      · simp [findTileAux, h]
      · simp [findTileAux, h, ih (i + 1)]
  exact aux g 0

theorem find_some_get (g : List Tile) (id : String) (i : Nat)
    (h : _find_gallery_tile g id = some i) :
    ∃ hlt : i < g.length, (g.get ⟨i, hlt⟩).id = id := by
  induction g generalizing i with
  | nil => simp [_find_gallery_tile, findTileAux] at h
  | cons t ts ih =>
    by_cases ht : t.id = id
    · have : i = 0 := by
        simp [_find_gallery_tile, findTileAux, ht] at h
        omega
      subst this
      exact ⟨by simp, ht⟩
    · have h' : findTileAux id ts 1 = some i := by
        simpa [_find_gallery_tile, findTileAux, ht] using h
      rw [findTileAux_shift] at h'
      cases hf : findTileAux id ts 0 with
      | none => rw [hf] at h'; simp at h'
      | some j =>
        rw [hf] at h'
        simp at h'
        obtain ⟨hj, hji⟩ := ih j hf
        refine ⟨by simp; omega, ?_⟩
        have : i = j + 1 := by omega
        subst this
        simpa using hji

theorem find_eq_some_of_get (g : List Tile) (id : String)
    (hN : (g.map Tile.id).Nodup) :
    ∀ (j : Nat) (hj : j < g.length), (g.get ⟨j, hj⟩).id = id →
      _find_gallery_tile g id = some j := by
  induction g with
  | nil => intro j hj; simp at hj
  | cons t ts ih =>
    intro j hj hjid
    have hN' : t.id ∉ ts.map Tile.id ∧ (ts.map Tile.id).Nodup := by
      simpa using hN
    cases j with
    | zero =>
      simp at hjid
      simp [_find_gallery_tile, findTileAux, hjid]
    | succ n =>
      have hn : n < ts.length := by simpa using hj
      have hnid : (ts.get ⟨n, hn⟩).id = id := by simpa using hjid
      have hmem : id ∈ ts.map Tile.id := by
        rw [← hnid]
        exact List.mem_map_of_mem Tile.id (ts.get_mem n hn)
      have ht : t.id ≠ id := fun he => hN'.1 (he ▸ hmem)
      have hrec := ih hN'.2 n hn hnid
      simp only [_find_gallery_tile, findTileAux, if_neg ht]
      rw [findTileAux_shift]
      rw [_find_gallery_tile] at hrec
      simp [hrec]

/-! ### Gallery update lemmas -/

theorem create_gallery_tile_json (g : List Tile) (t : Tile) :
    _create_gallery_tile (Content.json g) t = Content.json (g ++ [t]) := rfl

theorem update_gallery_tile_json (g : List Tile) (uid : String) (td : TileUpdate) :
    ∃ g', _update_gallery_tile (Content.json g) uid td = Content.json g'
      ∧ g'.map Tile.id = g.map Tile.id
      ∧ g'.map Tile.thumbnail = g.map Tile.thumbnail
      ∧ g'.length = g.length := by
  cases hf : _find_gallery_tile g uid with
  | none =>
    refine ⟨g, ?_, rfl, rfl, rfl⟩
    simp [_update_gallery_tile, _update_gallery_tile_exc, decode_content, hf]
  | some i =>
    obtain ⟨hlt, hid⟩ := find_some_get g uid i hf
    have hget : g[i]? = some (g.get ⟨i, hlt⟩) := by
      simp [List.getElem?_eq_getElem hlt]
    refine ⟨g.set i (update_tile (g.get ⟨i, hlt⟩) td), ?_, ?_, ?_, by simp⟩
    · simp only [_update_gallery_tile, _update_gallery_tile_exc, decode_content, hf,
        List.get?_eq_getElem?, hget]
      rfl
    · rw [List.map_set, update_tile_id]
      apply list_set_getElem_self
      rw [List.getElem?_map, List.getElem?_eq_getElem hlt]
      simp
    · rw [List.map_set, update_tile_thumbnail]
      apply list_set_getElem_self
      rw [List.getElem?_map, List.getElem?_eq_getElem hlt]
      simp

/-! ### `uploadMany` structure lemma -/

theorem uploadMany_spec (codec : Codec) (now : Int) :
    ∀ (args : List UploadArgs) (st : UploadState) (g : List Tile),
      st.gallery = Content.json g →
      ∃ ts : List Tile,
        (uploadMany codec now args st).1.gallery = Content.json (g ++ ts)
        ∧ ts.map Tile.id = (uploadMany codec now args st).2
        ∧ (uploadMany codec now args st).2.Sublist (args.map UploadArgs.freshUid) := by
  intro args
  induction args with
  | nil =>
    intro st g hg
    exact ⟨[], by simpa [uploadMany] using hg, rfl, by simp [uploadMany]⟩
  | cons a rest ih =>
    intro st g hg
    rcases hp : _process_image_data codec a.image with e | d
    · have hu : uploadMany codec now (a :: rest) st = uploadMany codec now rest st := by
        simp [uploadMany, upload_image, hp]
      rw [hu]
      obtain ⟨ts, h1, h2, h3⟩ := ih st g hg
      refine ⟨ts, h1, h2, h3.trans ?_⟩
      rw [List.map_cons]
      exact List.sublist_cons_self _ _
    · cases d with
      | none =>
        have hu : uploadMany codec now (a :: rest) st = uploadMany codec now rest st := by
          simp [uploadMany, upload_image, hp]
        rw [hu]
        obtain ⟨ts, h1, h2, h3⟩ := ih st g hg
        refine ⟨ts, h1, h2, h3.trans ?_⟩
        rw [List.map_cons]
        exact List.sublist_cons_self _ _
      | some d =>
        set item : ImageItem :=
          { meta :=
              { type := "gliff.image", imageName := a.name, createdTime := now,
                modifiedTime := now }
            content := d.encoded_image } with hitem
        set newTile :=
          _create_new_tile a.freshUid d.thumbnail a.image_labels
            (dictUpdate
              [("imageName", JVal.str a.name), ("width", JVal.num d.width),
                ("height", JVal.num d.height)] a.metadata) [] [] [] with htile
        set st' : UploadState :=
          { items := st.items ++ [(a.freshUid, item)]
            gallery := _create_gallery_tile st.gallery newTile } with hst'
        have hcall :
            upload_image codec st now a.freshUid a.name a.image a.image_labels a.metadata
              = (st', Except.ok (some a.freshUid)) := by
          simp [upload_image, hp, hst', hitem, htile]
        have hu : uploadMany codec now (a :: rest) st
            = ((uploadMany codec now rest st').1,
                a.freshUid :: (uploadMany codec now rest st').2) := by
          simp [uploadMany, hcall]
        have hg' : st'.gallery = Content.json (g ++ [newTile]) := by
          rw [hst']
          simp [hg, create_gallery_tile_json]
        obtain ⟨ts, h1, h2, h3⟩ := ih st' (g ++ [newTile]) hg'
        refine ⟨newTile :: ts, ?_, ?_, ?_⟩
        · rw [hu]
          simpa [List.append_assoc] using h1
        · rw [hu]
          simp only [List.map_cons, h2, htile]
          rfl
        · rw [hu]
          simpa using List.Sublist.cons₂ a.freshUid h3

/-! ### Claim theorems -/

/-- C1: the claim states that `_update_annotation_item` drops the last
stored annotation if and only if it is empty, so that a non-empty last
annotation is kept and the new annotations are appended after it.  The
code does not: the guard `len(prev) > 0 & is_empty(prev[-1])` parses as
`len(prev) > (0 & is_empty(prev[-1]))`, which is `len(prev) > 0`, so the
last annotation is dropped from every non-empty stored sequence — here a
non-empty `exAnn2` is dropped, where the claim (and the code's own
comment "if the last annotation is empty, remove it") requires
`[exAnn1, exAnn2, exAnn3]`.  On an empty stored sequence the same guard
raises `IndexError` through the evaluation of `prev[-1]`. -/
theorem c1_compaction_drops_nonempty_last :
    is_empty_annot exAnn2 = false
    ∧ _update_annotation_item_content (Content.json [exAnn1, exAnn2]) [exAnn3]
        = Except.ok (Content.json [exAnn1, exAnn3])
    ∧ _update_annotation_item_content (Content.json ([] : List Annot)) [exAnn3]
        = Except.error PyErr.indexError :=
  ⟨rfl, rfl, rfl⟩

/-- C6 counterexample: at the concrete invalid stored content
`"not json"`, the gallery read returns the null result `None` — it does
not surface a `DecodeError` (no such exception exists in the code, and
`decode_content` catches the JSON error and returns `None`), refuting the
claim that a decode failure is surfaced and never turned into a null
result. -/
theorem c6_cex_null_on_invalid :
    _get_gallery (Content.invalid "not json") = none := rfl

/-- C6 (amended): when the stored gallery content is not valid JSON,
`decode_content` catches the `json.JSONDecodeError`, logs a warning, and
returns `None`, so the gallery read yields a null result (never an empty
gallery, and never a raised `DecodeError`). -/
theorem c6_decode_failure_yields_null (s : String) :
    _get_gallery (Content.invalid s) = none
    ∧ @decode_content (List Tile) (Content.invalid s) = none :=
  ⟨rfl, rfl⟩

/-- C9: binding the session to the same (account, project uid) pair again
is idempotent — the second `update_project_data` performs zero remote
fetches and returns the cached handles unchanged. -/
theorem c9_bind_idempotent (r : Remote) (s : Option ProjectCache)
    (account project_uid : String) :
    gliff_update_project_data r
        (gliff_update_project_data r s account project_uid).1 account project_uid
      = ((gliff_update_project_data r s account project_uid).1, 0) := by
  cases s with
  | none => simp [gliff_update_project_data, reset_values, project_update_project_data]
  | some c =>
    by_cases h : account ≠ c.account ∨ project_uid ≠ c.project_uid
    · simp [gliff_update_project_data, project_update_project_data, h, reset_values]
    · simp [gliff_update_project_data, project_update_project_data, h]

/-- C8: the tile-update path never changes a tile's `id` or `thumbnail`:
`update_tile` leaves both fields of any tile unchanged under any patch,
`_create_new_tile` sets them exactly from its arguments, and
`_update_gallery_tile` preserves the `id` and `thumbnail` of every tile
of the gallery. -/
theorem c8_id_thumbnail_frame :
    (∀ (t : Tile) (u : TileUpdate),
        (update_tile t u).id = t.id ∧ (update_tile t u).thumbnail = t.thumbnail)
    ∧ (∀ (uid thumb : String) (labels : List String) (md : Dict String JVal)
        (auid aud : Dict String String) (ac : Dict String Bool),
        (_create_new_tile uid thumb labels md auid aud ac).id = uid
        ∧ (_create_new_tile uid thumb labels md auid aud ac).thumbnail = thumb)
    ∧ (∀ (g : List Tile) (uid : String) (td : TileUpdate),
        ∃ g', _update_gallery_tile (Content.json g) uid td = Content.json g'
          ∧ g'.map Tile.id = g.map Tile.id
          ∧ g'.map Tile.thumbnail = g.map Tile.thumbnail) := by
  refine ⟨fun t u => ⟨update_tile_id t u, update_tile_thumbnail t u⟩,
    fun uid thumb labels md auid aud ac => ⟨rfl, rfl⟩,
    fun g uid td => ?_⟩
  obtain ⟨g', h1, h2, h3, _⟩ := update_gallery_tile_json g uid td
  exact ⟨g', h1, h2, h3⟩

/-- C5 counterexample: at the concrete input `ImageInput.other` (neither
a bitmap nor a string), `upload_image` returns normally with `None` and
an unchanged store — it does not fail with `InvalidImageError` (no such
exception exists in the code; `_process_image_data` logs and returns
`None`), refuting the claim's error behaviour. -/
theorem c5_cex_no_error_on_bad_type :
    upload_image codec0 st0 0 "u1" "scan" ImageInput.other [] [] = (st0, Except.ok none) :=
  rfl

/-- C5 (amended): for an input image that is neither a bitmap nor a
string, `upload_image` logs and returns `None`, with no image item
created and no tile appended; for an encoded string the decoder cannot
parse, the underlying decode exception (not `InvalidImageError`)
propagates, likewise before any item is created or tile appended. -/
theorem c5_invalid_image_no_item_no_tile (codec : Codec) (st : UploadState)
    (now : Int) (freshUid name : String) (labels : List String)
    (md : Dict String JVal) :
    upload_image codec st now freshUid name ImageInput.other labels md
        = (st, Except.ok none)
    ∧ ∀ s, codec.b64ToPil s = none →
        upload_image codec st now freshUid name (ImageInput.str s) labels md
          = (st, Except.error PyErr.decodeError) := by
  constructor
  · rfl
  · intro s hs
    simp [upload_image, _process_image_data, hs]

/-- C5 witness: the amended theorem applied at a concrete unparseable
string under the concrete codec. -/
theorem c5_witness :
    upload_image codec0 st0 0 "u1" "scan" (ImageInput.str "zz") [] []
      = (st0, Except.error PyErr.decodeError) :=
  (c5_invalid_image_no_item_no_tile codec0 st0 0 "u1" "scan" [] []).2 "zz" rfl

/-- C10: `_update_gallery_tile` is atomic with respect to failure and
never raises: whatever exception the read-find-merge-write pipeline
produces (in particular the `TypeError` from indexing with the `None`
returned by a failed tile lookup, or from a gallery that failed to
decode), the surrounding handler catches it, leaves the stored content
unchanged, and returns normally; on success it returns the rewritten
content. -/
theorem c10_update_gallery_tile_catches (content : Content (List Tile))
    (uid : String) (td : TileUpdate) :
    (∀ e, _update_gallery_tile_exc content uid td = Except.error e →
        _update_gallery_tile content uid td = content)
    ∧ (∀ c, _update_gallery_tile_exc content uid td = Except.ok c →
        _update_gallery_tile content uid td = c)
    ∧ (decode_content content = none → _update_gallery_tile content uid td = content)
    ∧ (∀ g, decode_content content = some g → _find_gallery_tile g uid = none →
        _update_gallery_tile content uid td = content) := by
  refine ⟨?_, ?_, ?_, ?_⟩
  · intro e he
    simp [_update_gallery_tile, he]
  · intro c hc
    simp [_update_gallery_tile, hc]
  · intro h
    simp [_update_gallery_tile, _update_gallery_tile_exc, h]
  · intro g hg hf
    simp [_update_gallery_tile, _update_gallery_tile_exc, hg, hf]

/-- C10 witness: the theorem applied at a concrete gallery and a uid that
matches no tile — the stored content is returned unchanged. -/
theorem c10_witness :
    _update_gallery_tile (Content.json [exTile]) "missing" exPatch
      = Content.json [exTile] :=
  (c10_update_gallery_tile_catches (Content.json [exTile]) "missing" exPatch).2.2.2
    [exTile] rfl (by decide)

/-- C2: per-field merge rules of the tile update.  For every tile, patch
and key: each of the four mapping fields is unchanged when the patch
leaves it unset (`None`) and when the patch carries an empty mapping;
when the patch carries a mapping, the merged field maps every key of the
patch to the patch's value and every other key to the tile's existing
value (so existing entries are never removed, only added or
overwritten); `imageLabels`, when present in the patch, replaces the
whole list.  The last conjunct is the stated consequence: a patch to
`annotationUID` never removes a user absent from the patch. -/
theorem c2_update_tile_merge_rules (t : Tile) (u : TileUpdate) (k : String) :
    ((u.metadata = none → (update_tile t u).metadata = t.metadata)
      ∧ (u.metadata = some [] → (update_tile t u).metadata = t.metadata)
      ∧ (∀ p, u.metadata = some p → (dictKeys p).Nodup →
          dictLookup (update_tile t u).metadata k =
            mergeLookup (dictLookup p k) (dictLookup t.metadata k)))
    ∧ ((u.annotationUID = none → (update_tile t u).annotationUID = t.annotationUID)
      ∧ (u.annotationUID = some [] → (update_tile t u).annotationUID = t.annotationUID)
      ∧ (∀ p, u.annotationUID = some p → (dictKeys p).Nodup →
          dictLookup (update_tile t u).annotationUID k =
            mergeLookup (dictLookup p k) (dictLookup t.annotationUID k)))
    ∧ ((u.auditUID = none → (update_tile t u).auditUID = t.auditUID)
      ∧ (u.auditUID = some [] → (update_tile t u).auditUID = t.auditUID)
      ∧ (∀ p, u.auditUID = some p → (dictKeys p).Nodup →
          dictLookup (update_tile t u).auditUID k =
            mergeLookup (dictLookup p k) (dictLookup t.auditUID k)))
    ∧ ((u.annotationComplete = none →
          (update_tile t u).annotationComplete = t.annotationComplete)
      ∧ (u.annotationComplete = some [] →
          (update_tile t u).annotationComplete = t.annotationComplete)
      ∧ (∀ p, u.annotationComplete = some p → (dictKeys p).Nodup →
          dictLookup (update_tile t u).annotationComplete k =
            mergeLookup (dictLookup p k) (dictLookup t.annotationComplete k)))
    ∧ ((u.imageLabels = none → (update_tile t u).imageLabels = t.imageLabels)
      ∧ (∀ l, u.imageLabels = some l → (update_tile t u).imageLabels = l))
    ∧ (∀ p, u.annotationUID = some p → dictLookup p k = none →
        dictLookup (update_tile t u).annotationUID k
          = dictLookup t.annotationUID k) := by
  refine ⟨⟨?_, ?_, ?_⟩, ⟨?_, ?_, ?_⟩, ⟨?_, ?_, ?_⟩, ⟨?_, ?_, ?_⟩, ⟨?_, ?_⟩, ?_⟩
  · intro h; rw [update_tile_metadata, h]
  · intro h; rw [update_tile_metadata, h]; rfl
  · intro p hp hN
    have hm : (update_tile t u).metadata = dictUpdate t.metadata p := by
      rw [update_tile_metadata, hp]
    rw [hm]
    exact dictLookup_dictUpdate t.metadata p k hN
  · intro h; rw [update_tile_annotationUID, h]
  · intro h; rw [update_tile_annotationUID, h]; rfl
  · intro p hp hN
    have hm : (update_tile t u).annotationUID = dictUpdate t.annotationUID p := by
      rw [update_tile_annotationUID, hp]
    rw [hm]
    exact dictLookup_dictUpdate t.annotationUID p k hN
  · intro h; rw [update_tile_auditUID, h]
  · intro h; rw [update_tile_auditUID, h]; rfl
  · intro p hp hN
    have hm : (update_tile t u).auditUID = dictUpdate t.auditUID p := by
      rw [update_tile_auditUID, hp]
    rw [hm]
    exact dictLookup_dictUpdate t.auditUID p k hN
  · intro h; rw [update_tile_annotationComplete, h]
  · intro h; rw [update_tile_annotationComplete, h]; rfl
  · intro p hp hN
    have hm : (update_tile t u).annotationComplete = dictUpdate t.annotationComplete p := by
      rw [update_tile_annotationComplete, hp]
    rw [hm]
    exact dictLookup_dictUpdate t.annotationComplete p k hN
  · intro h; rw [update_tile_imageLabels, h]
  · intro l h; rw [update_tile_imageLabels, h]
  · intro p hp hnone
    have hm : (update_tile t u).annotationUID = dictUpdate t.annotationUID p := by
      rw [update_tile_annotationUID, hp]
    rw [hm]
    exact dictLookup_dictUpdate_of_none t.annotationUID p k hnone

/-- C2 witness: the theorem applied at the spec's own example — a tile
with `annotationUID = [(alice, A1)]` patched with `[(bob, B1)]` keeps
alice's entry and gains bob's. -/
theorem c2_witness :
    dictLookup (update_tile exTile exPatch).annotationUID "alice" = some "A1"
    ∧ dictLookup (update_tile exTile exPatch).annotationUID "bob" = some "B1" := by
  constructor
  · have ha := (c2_update_tile_merge_rules exTile exPatch "alice").2.2.2.2.2
      [("bob", "B1")] rfl (by decide)
    rw [ha]; decide
  · have hb := (c2_update_tile_merge_rules exTile exPatch "bob").2.1.2.2
      [("bob", "B1")] rfl (by decide)
    rw [hb]; decide

/-- C4 counterexample: at a concrete store holding the item `I1` but a
gallery with no tile for it, `update_metadata_and_labels` returns
normally (`.ok ()`, gallery untouched) and `get_metadata_and_labels`
returns normally with `None` — neither fails with `TileNotFoundError`
(no such exception exists in the code; both catch and log), refuting the
claim's error behaviour. -/
theorem c4_cex_no_error_when_tile_missing :
    (update_metadata_and_labels
        { items := [("I1", exImageItem)], gallery := Content.json [] } 5 "I1" none
        [("k", JVal.str "v")]).2 = Except.ok ()
    ∧ (update_metadata_and_labels
        { items := [("I1", exImageItem)], gallery := Content.json [] } 5 "I1" none
        [("k", JVal.str "v")]).1.gallery = Content.json []
    ∧ get_metadata_and_labels (Content.json []) "I1" = Except.ok none := by
  refine ⟨?_, ?_, rfl⟩ <;> rfl

/-- C4 (amended): when no tile of the gallery matches `item_uid` (the
item itself existing), `update_metadata_and_labels` catches the tile
update's failure, logs it, and returns normally with the gallery
unchanged, and `get_metadata_and_labels` catches its lookup failure and
returns `None` — neither raises. -/
theorem c4_tile_missing_logged_not_raised (st : UploadState) (now : Int)
    (uid : String) (labels : Option (List String)) (md : Dict String JVal)
    (g : List Tile) (item : ImageItem)
    (hg : st.gallery = Content.json g)
    (hmiss : ∀ t ∈ g, t.id ≠ uid)
    (hitem : dictLookup st.items uid = some item) :
    (update_metadata_and_labels st now uid labels md).2 = Except.ok ()
    ∧ (update_metadata_and_labels st now uid labels md).1.gallery = st.gallery
    ∧ get_metadata_and_labels st.gallery uid = Except.ok none := by
  have hfind : _find_gallery_tile g uid = none := (find_none_iff g uid).mpr hmiss
  have hupd : ∀ td, _update_gallery_tile st.gallery uid td = st.gallery := by
    intro td
    rw [hg]
    simp [_update_gallery_tile, _update_gallery_tile_exc, decode_content, hfind]
  refine ⟨?_, ?_, ?_⟩
  · by_cases hb : (md.isEmpty && (labels.getD []).isEmpty) = true
    · simp [update_metadata_and_labels, hb]
    · simp [update_metadata_and_labels, hb, hitem]
  · by_cases hb : (md.isEmpty && (labels.getD []).isEmpty) = true
    · simp [update_metadata_and_labels, hb]
    · simp [update_metadata_and_labels, hb, hitem, hupd]
  · rw [hg]
    simp [get_metadata_and_labels, decode_content, hfind]

/-- C4 witness: the amended theorem applied at the concrete store of the
counterexample, with labels present so that the non-trivial path runs. -/
theorem c4_witness :
    (update_metadata_and_labels
        { items := [("I1", exImageItem)], gallery := Content.json [] } 5 "I1"
        (some ["x"]) []).2 = Except.ok ()
    ∧ (update_metadata_and_labels
        { items := [("I1", exImageItem)], gallery := Content.json [] } 5 "I1"
        (some ["x"]) []).1.gallery
        = ({ items := [("I1", exImageItem)], gallery := Content.json [] } :
            UploadState).gallery
    ∧ get_metadata_and_labels
        ({ items := [("I1", exImageItem)], gallery := Content.json [] } :
          UploadState).gallery "I1" = Except.ok none :=
  c4_tile_missing_logged_not_raised
    { items := [("I1", exImageItem)], gallery := Content.json [] } 5 "I1"
    (some ["x"]) [] [] exImageItem rfl (by simp) (by decide)

/-- When every tile that matches the image uid has no annotation entry
for the username, the `_get_annotation_uid` scan comes up empty. -/
theorem get_ann_uid_list_none (g : List Tile) (uid username : String)
    (h : ∀ t ∈ g, t.id = uid → dictLookup t.annotationUID username = none) :
    _get_annotation_uid_list g uid username = none := by
  induction g with
  | nil => rfl
  | cons t ts ih =>
    have hts := ih (fun t' ht' => h t' (List.mem_cons_of_mem _ ht'))
    by_cases hid : t.id = uid
    · simp [_get_annotation_uid_list, hid, h t (List.mem_cons_self t ts) hid, hts]
    · simp [_get_annotation_uid_list, hid, hts]

/-- C7: `get_annotations` returns the "no annotations" value `None` —
not an error — whenever no annotation-item uid is recorded for the
(image, user) pair in the matching tile's `annotationUID` mapping, and
returns the decoded annotation sequence of the recorded item when a uid
is recorded and the item decodes. -/
theorem c7_get_annotations_spec (st : AnnState) (g : List Tile)
    (image_item_uid username : String) (hg : st.gallery = Content.json g) :
    ((∀ t ∈ g, t.id = image_item_uid → dictLookup t.annotationUID username = none) →
        get_annotations st image_item_uid username = none)
    ∧ (∀ auid item anns,
        _get_annotation_uid_list g image_item_uid username = some auid →
        dictLookup st.annItems auid = some item →
        item.content = Content.json anns →
        get_annotations st image_item_uid username = some anns) := by
  constructor
  · intro h
    have hnone := get_ann_uid_list_none g image_item_uid username h
    simp [get_annotations, _get_annotation_uid, hg, decode_content, hnone]
  · intro auid item anns h1 h2 h3
    simp [get_annotations, _get_annotation_uid, hg, decode_content, h1, h2, h3]

/-- C7 witness: the theorem applied at the concrete annotation state —
alice has a recorded annotation item whose content is returned; bob has
none recorded and receives `None`. -/
theorem c7_witness :
    get_annotations exAnnState "img1" "alice" = some [exAnn1]
    ∧ get_annotations exAnnState "img1" "bob" = none := by
  constructor
  · exact (c7_get_annotations_spec exAnnState [exTile] "img1" "alice" rfl).2 "A1"
      { meta := exAnnItemMeta, content := .json [exAnn1] } [exAnn1]
      (by decide) (by decide) rfl
  · exact (c7_get_annotations_spec exAnnState [exTile] "img1" "bob" rfl).1 (by decide)

/-- C3: starting from a gallery whose tile ids are pairwise distinct,
any sequence of `upload_image` calls with store-assigned fresh, pairwise
distinct uids yields a gallery that still has pairwise distinct ids and
holds exactly one tile per created item uid; on any such gallery,
`_find_gallery_tile` returns the index of the unique tile whose id
equals the searched uid, or the not-found sentinel when no tile
matches. -/
theorem c3_tile_uniqueness (codec : Codec) (now : Int) (args : List UploadArgs)
    (st : UploadState) (g : List Tile)
    (hg : st.gallery = Content.json g)
    (hN : (g.map Tile.id).Nodup)
    (hA : (args.map UploadArgs.freshUid).Nodup)
    (hF : ∀ u ∈ args.map UploadArgs.freshUid, u ∉ g.map Tile.id) :
    ∃ g', (uploadMany codec now args st).1.gallery = Content.json g'
      ∧ (g'.map Tile.id).Nodup
      ∧ (∀ uid ∈ (uploadMany codec now args st).2, (g'.map Tile.id).count uid = 1)
      ∧ (∀ uid i, _find_gallery_tile g' uid = some i →
          ∃ hlt : i < g'.length, (g'.get ⟨i, hlt⟩).id = uid)
      ∧ (∀ uid j, ∀ hj : j < g'.length, (g'.get ⟨j, hj⟩).id = uid →
          _find_gallery_tile g' uid = some j)
      ∧ (∀ uid, _find_gallery_tile g' uid = none → ∀ t ∈ g', t.id ≠ uid) := by
  obtain ⟨ts, h1, h2, h3⟩ := uploadMany_spec codec now args st g hg
  have hcreatedN : (uploadMany codec now args st).2.Nodup := hA.sublist h3
  have htsN : (ts.map Tile.id).Nodup := by rw [h2]; exact hcreatedN
  have hdisj : (g.map Tile.id).Disjoint (ts.map Tile.id) := by
    intro x hxg hxts
    rw [h2] at hxts
    exact hF x (h3.subset hxts) hxg
  have hN' : ((g ++ ts).map Tile.id).Nodup := by
    rw [List.map_append]
    exact List.nodup_append.mpr ⟨hN, htsN, hdisj⟩
  refine ⟨g ++ ts, h1, hN', ?_, ?_, ?_, ?_⟩
  · intro uid hmem
    have hmemid : uid ∈ (g ++ ts).map Tile.id := by
      rw [List.map_append]
      exact List.mem_append_right _ (h2 ▸ hmem)
    exact List.count_eq_one_of_mem hN' hmemid
  · intro uid i hfind
    exact find_some_get _ uid i hfind
  · intro uid j hj hjid
    exact find_eq_some_of_get _ uid hN' j hj hjid
  · intro uid hfind
    exact (find_none_iff _ uid).mp hfind

/-- C3 witness: the theorem applied to two concrete uploads into an
empty gallery. -/
theorem c3_witness :
    ∃ g', (uploadMany codec0 0
        [{ freshUid := "u1", name := "scan1",
            image := ImageInput.pil { width := 200, height := 100, payload := "p" },
            image_labels := [], metadata := [] },
          { freshUid := "u2", name := "scan2",
            image := ImageInput.pil { width := 2, height := 3, payload := "q" },
            image_labels := [], metadata := [] }] st0).1.gallery = Content.json g'
      ∧ (g'.map Tile.id).Nodup
      ∧ (∀ uid ∈ (uploadMany codec0 0
          [{ freshUid := "u1", name := "scan1",
              image := ImageInput.pil { width := 200, height := 100, payload := "p" },
              image_labels := [], metadata := [] },
            { freshUid := "u2", name := "scan2",
              image := ImageInput.pil { width := 2, height := 3, payload := "q" },
              image_labels := [], metadata := [] }] st0).2,
          (g'.map Tile.id).count uid = 1)
      ∧ (∀ uid i, _find_gallery_tile g' uid = some i →
          ∃ hlt : i < g'.length, (g'.get ⟨i, hlt⟩).id = uid)
      ∧ (∀ uid j, ∀ hj : j < g'.length, (g'.get ⟨j, hj⟩).id = uid →
          _find_gallery_tile g' uid = some j)
      ∧ (∀ uid, _find_gallery_tile g' uid = none → ∀ t ∈ g', t.id ≠ uid) :=
  c3_tile_uniqueness codec0 0
    [{ freshUid := "u1", name := "scan1",
        image := ImageInput.pil { width := 200, height := 100, payload := "p" },
        image_labels := [], metadata := [] },
      { freshUid := "u2", name := "scan2",
          image := ImageInput.pil { width := 2, height := 3, payload := "q" },
          image_labels := [], metadata := [] }] st0 [] rfl (by decide) (by decide)
    (by decide)
